import Mathlib

/-!
Verification of the HealthCheck backend (src/main.py) against its specification.

The program is a single-file FastAPI service.  We give a shallow embedding of
the parts of src/main.py the claims are about:

* `initialize_vision_client` (main.py lines 27-50): credential bootstrap for the
  Google Vision client.  The inline base64 payload path and the ambient
  discovery path are modelled as function/value parameters returning
  `Except String VisionClient`, where `Except.error` models a Python exception
  escaping that sub-step; the result of the whole function is `Except.error`
  exactly when an exception propagates past the component.

* `vision_process_uploaded_image` (lines 71-101): OCR normalization.  The
  collaborator response after `MessageToDict` is modelled by `VisionResponse`;
  `MessageToDict` omits empty repeated fields, so an absent "textAnnotations"
  key is modelled by the empty list, and an absent "description" / "score"
  key by the Python defaults "" / 0 used at the access sites.  Numeric scores
  are modelled as rationals and Python float rounding by rational rounding to
  two decimal places.  Python str.strip() is modelled by `pyStrip`, which
  removes leading and trailing whitespace characters.

* `analyze_with_openai` (lines 105-166): summarizer with its duck-typed
  extraction chain, modelled by `CompletionResponse` with one optional field
  per probed shape.

* `analyze_image_endpoint` (lines 170-186): the POST endpoint.  An
  `HTTPException` propagating to FastAPI is modelled by
  `EndpointResult.httpError status detail`; a normal return (HTTP 200) by
  `EndpointResult.ok summary raw_text_detected detected_labels`.
-/

namespace HealthCheck

/-- Opaque handle standing for a constructed `vision.ImageAnnotatorClient`. -/
structure VisionClient where
  id : Nat
deriving DecidableEq

/-- Message of the RuntimeError raised at main.py line 48. -/
def runtimeErrorMsg : String := "Failed to initialize Google Vision client."

/-- Embedding of `initialize_vision_client` (main.py lines 27-50).
`json_base64` is `os.getenv("GOOGLE_APPLICATION_CREDENTIALS_JSON")` (`none` =
unset); Python truthiness makes the empty string skip the inline path.
`inlineInit s` models the decode/parse/construct chain of lines 33-37 on the
payload `s` (error = some sub-step raised); `ambientInit` models
`vision.ImageAnnotatorClient()` at line 44.  A final `Except.error` models the
RuntimeError of line 48 escaping the component. -/
def initialize_vision_client (json_base64 : Option String)
    (inlineInit : String → Except String VisionClient)
    (ambientInit : Except String VisionClient) : Except String VisionClient :=
  let ambientStep : Except String VisionClient :=
    match ambientInit with
    | Except.ok c => Except.ok c
    | Except.error _ => Except.error runtimeErrorMsg
  match json_base64 with
  | none => ambientStep
  | some s =>
    if s = "" then ambientStep
    else
      match inlineInit s with
      | Except.ok c => Except.ok c
      | Except.error _ => ambientStep

/-- One entry of the "textAnnotations" list of the collaborator response
(after MessageToDict); only the "description" field is read by the code. -/
structure TextAnn where
  description : String
deriving DecidableEq

/-- One entry of the "labelAnnotations" list; the code reads "description"
and "score" (score defaulting to 0 when the key is absent). -/
structure LabelAnn where
  description : String
  score : ℚ
deriving DecidableEq

/-- Collaborator response dictionary, restricted to the keys the code reads.
MessageToDict omits empty repeated fields, so the empty list models an absent
key. -/
structure VisionResponse where
  textAnns : List TextAnn
  labelAnns : List LabelAnn
deriving DecidableEq

/-- Drop leading whitespace characters from a character list. -/
def dropSpaces : List Char → List Char
  | [] => []
  | c :: cs => if c.isWhitespace then dropSpaces cs else c :: cs

/-- Model of Python str.strip(): remove leading and trailing whitespace. -/
def pyStrip (s : String) : String :=
  String.mk (List.reverse (dropSpaces (List.reverse (dropSpaces s.data))))

/-- Sentinel substituted at main.py line 91 when the stripped OCR text is
empty (note the trailing period in the source literal). -/
def noTextSentinel : String := "No text detected."

/-- Embedding of main.py line 91:
`vision_results.get("textAnnotations", [{}])[0].get("description", "").strip()
or "No text detected."`.  With an empty list the default `[{}]` entry yields
description "". -/
def detected_text (textAnns : List TextAnn) : String :=
  let firstDescription :=
    match textAnns with
    | [] => ""
    | a :: _ => a.description
  let stripped := pyStrip firstDescription
  if stripped = "" then noTextSentinel else stripped

/-- Python `round(x, 2)` modelled on rationals: round to an integer number of
hundredths. -/
def round2 (q : ℚ) : ℚ := ((round (q * 100) : ℤ) : ℚ) / 100

/-- The (description, rounded score) pairs produced by the comprehension at
main.py lines 92-95: the first 5 label annotations, in collaborator order. -/
def label_entries (labelAnns : List LabelAnn) : List (String × ℚ) :=
  (labelAnns.take 5).map (fun l => (l.description, round2 l.score))

/-- String rendering of one label entry, as in the f-string at line 93. -/
def render_label (p : String × ℚ) : String :=
  p.1 ++ " (Score: " ++ toString p.2 ++ ")"

/-- The "labels" list built at main.py lines 92-95. -/
def make_labels (labelAnns : List LabelAnn) : List String :=
  (label_entries labelAnns).map render_label

/-- Detail string of the 500 raised at main.py line 73. -/
def visionNotInitMsg : String := "Vision client not initialized."

/-- Start of the 400 detail string built at main.py line 78. -/
def readFailMsgStart : String := "Could not read uploaded image: "

/-- Start of the 500 detail string built at main.py line 101. -/
def visionFailMsgStart : String := "Cloud Vision API call failed: "

/-- The {text, labels} dictionary returned at main.py line 97. -/
structure DetectionResult where
  text : String
  labels : List String
deriving DecidableEq

/-- Embedding of `vision_process_uploaded_image` (main.py lines 71-101).
`clientPresent` is `vision_client is not None`; `readResult` models
`await image_file.read()` (error = the read raised, carrying the exception
message); `annotate` models the collaborator call of line 88 on the read
bytes (error = the call raised).  `Except.error (s, d)` models
`HTTPException(status_code=s, detail=d)` escaping. -/
def vision_process_uploaded_image (clientPresent : Bool)
    (readResult : Except String (List Nat))
    (annotate : List Nat → Except String VisionResponse) :
    Except (Nat × String) DetectionResult :=
  if clientPresent = false then Except.error (500, visionNotInitMsg)
  else
    match readResult with
    | Except.error e => Except.error (400, readFailMsgStart ++ e)
    | Except.ok content =>
      match annotate content with
      | Except.error e => Except.error (500, visionFailMsgStart ++ e)
      | Except.ok resp =>
        Except.ok { text := detected_text resp.textAnns,
                    labels := make_labels resp.labelAnns }

/-- Completion-service response, restricted to the attributes probed at
main.py lines 142-152.  `messageContent` is `choices[0].message.content`
(`none` = attribute missing or content `None`); `hasOutput` is
`hasattr(response, "output")`; `outputText` is
`response.output[0].content[0].text` (`none` = that extraction raised);
`choiceText` is `choices[0].text` (`none` = attribute missing). -/
structure CompletionResponse where
  messageContent : Option String
  hasOutput : Bool
  outputText : Option String
  choiceText : Option String
deriving DecidableEq

/-- Fixed diagnostic returned at main.py line 107 when the key is unset. -/
def notConfiguredMsg : String :=
  "LLM Analysis failed: OPENAI_API_KEY not configured on the server."

/-- Fixed diagnostic returned at main.py line 157 for empty content. -/
def emptyDiagMsg : String :=
  "LLM could not generate an analysis. Please upload a clearer or more detailed food label."

/-- Start of the diagnostic built at main.py line 166 on a caught exception. -/
def apiErrorMsgStart : String := "LLM Analysis failed due to API error: "

/-- Embedding of the extraction chain at main.py lines 139-152: the
conventional message-content location first (taken when present and truthy,
i.e. a non-empty string), else the `output` shape when that attribute exists
(its inner extraction may have raised), else `choices[0].text` when present;
`none` when no branch assigned anything. -/
def summary_content (r : CompletionResponse) : Option String :=
  match r.messageContent with
  | some c =>
    if c = "" then (if r.hasOutput then r.outputText else r.choiceText)
    else some c
  | none => if r.hasOutput then r.outputText else r.choiceText

/-- Embedding of `analyze_with_openai` (main.py lines 105-166).  `apiKey` is
`os.getenv("OPENAI_API_KEY")`; the guard models Python truthiness (unset or
empty string).  `call t ls` models the completion request of lines 127-136
for OCR text `t` and labels `ls` (error = the call raised, carrying the
exception message).  Never errors: every exception of the call is caught. -/
def analyze_with_openai (apiKey : Option String) (t : String) (ls : List String)
    (call : String → List String → Except String CompletionResponse) : String :=
  if apiKey.getD "" = "" then notConfiguredMsg
  else
    match call t ls with
    | Except.error e => apiErrorMsgStart ++ e
    | Except.ok r =>
      match summary_content r with
      | none => emptyDiagMsg
      | some s => if pyStrip s = "" then emptyDiagMsg else pyStrip s

/-- Outcome of one request to the POST endpoint: a normal HTTP 200 JSON body
with the three fields of main.py lines 182-186, or an HTTPException surfaced
by FastAPI as `{"detail": detail}` with the given status. -/
inductive EndpointResult where
  | ok (summary : String) (raw_text_detected : String) (detected_labels : List String)
  | httpError (status : Nat) (detail : String)
deriving DecidableEq

/-- Embedding of `analyze_image_endpoint` (main.py lines 170-186): run the
vision step; an HTTPException from it propagates; otherwise build the body
from the detection result and the summarizer output. -/
def analyze_image_endpoint (clientPresent : Bool)
    (readResult : Except String (List Nat))
    (annotate : List Nat → Except String VisionResponse)
    (apiKey : Option String)
    (call : String → List String → Except String CompletionResponse) :
    EndpointResult :=
  match vision_process_uploaded_image clientPresent readResult annotate with
  | Except.error (s, d) => EndpointResult.httpError s d
  | Except.ok det =>
    EndpointResult.ok (analyze_with_openai apiKey det.text det.labels call)
      det.text det.labels

/-- Claim C1, counterexample: with no inline payload configured and ambient
discovery failing, `initialize_vision_client` does not return normally with an
absent handle — the RuntimeError of main.py line 48 escapes the component. -/
theorem c1_counterexample :
    initialize_vision_client none (fun s => Except.error s)
      (Except.error "ADC unavailable") = Except.error runtimeErrorMsg := rfl

/-- Helper: when the inline payload is unset or empty, the resolver reduces
to the ambient step (main.py lines 43-48). -/
theorem init_no_inline (inlineInit : String → Except String VisionClient)
    (ambientInit : Except String VisionClient) (json_base64 : Option String)
    (hjb : json_base64 = none ∨ json_base64 = some "") :
    initialize_vision_client json_base64 inlineInit ambientInit =
      match ambientInit with
      | Except.ok c => Except.ok c
      | Except.error _ => Except.error runtimeErrorMsg := by
  rcases hjb with rfl | rfl <;> rfl

/-- Helper: when the inline payload is present and its chain fails, the
resolver falls back to the ambient step (main.py lines 40-48). -/
theorem init_inline_fail (inlineInit : String → Except String VisionClient)
    (ambientInit : Except String VisionClient) (s e : String) (hs : ¬ s = "")
    (hi : inlineInit s = Except.error e) :
    initialize_vision_client (some s) inlineInit ambientInit =
      match ambientInit with
      | Except.ok c => Except.ok c
      | Except.error _ => Except.error runtimeErrorMsg := by
  simp only [initialize_vision_client, if_neg hs, hi]

/-- Helper: when the inline payload chain succeeds, the resolver returns its
client without consulting the ambient step (main.py line 39). -/
theorem init_inline_ok (inlineInit : String → Except String VisionClient)
    (ambientInit : Except String VisionClient) (s : String) (c : VisionClient)
    (hs : ¬ s = "") (hi : inlineInit s = Except.ok c) :
    initialize_vision_client (some s) inlineInit ambientInit = Except.ok c := by
  simp only [initialize_vision_client, if_neg hs, hi]

/-- Claim C1 (amended): for every configuration, `initialize_vision_client`
either returns normally with a present vision-client handle or raises the
fixed RuntimeError — it never yields an absent handle and no other exception
escapes; moreover the RuntimeError escapes exactly when ambient discovery
fails and the inline path did not succeed. -/
theorem c1_amended_resolver_total (json_base64 : Option String)
    (inlineInit : String → Except String VisionClient)
    (ambientInit : Except String VisionClient) :
    ((∃ c, initialize_vision_client json_base64 inlineInit ambientInit =
        Except.ok c) ∨
      initialize_vision_client json_base64 inlineInit ambientInit =
        Except.error runtimeErrorMsg) ∧
    (initialize_vision_client json_base64 inlineInit ambientInit =
        Except.error runtimeErrorMsg ↔
      ((∃ e, ambientInit = Except.error e) ∧
        ∀ s c, json_base64 = some s → ¬ s = "" →
          ¬ inlineInit s = Except.ok c)) := by
  rcases hjb : json_base64 with _ | s
  · rw [init_no_inline inlineInit ambientInit none (Or.inl rfl)]
    rcases ambientInit with e | c
    · refine ⟨Or.inr rfl, ?_⟩
      constructor
      · intro _
        exact ⟨⟨e, rfl⟩, fun u c hu => Option.noConfusion hu⟩
      · intro _; rfl
    · refine ⟨Or.inl ⟨c, rfl⟩, ?_⟩
      constructor
      · intro h; exact Except.noConfusion h
      · rintro ⟨⟨e2, he⟩, _⟩; exact Except.noConfusion he
  · by_cases hs : s = ""
    · subst hs
      rw [init_no_inline inlineInit ambientInit (some "") (Or.inr rfl)]
      rcases ambientInit with e | c
      · refine ⟨Or.inr rfl, ?_⟩
        constructor
        · intro _
          refine ⟨⟨e, rfl⟩, ?_⟩
          intro u c hu hne _
          injection hu with h2
          exact hne h2.symm
        · intro _; rfl
      · refine ⟨Or.inl ⟨c, rfl⟩, ?_⟩
        constructor
        · intro h; exact Except.noConfusion h
        · rintro ⟨⟨e2, he⟩, _⟩; exact Except.noConfusion he
    · rcases hi : inlineInit s with e | c
      · rw [init_inline_fail inlineInit ambientInit s e hs hi]
        rcases ambientInit with f | c
        · refine ⟨Or.inr rfl, ?_⟩
          constructor
          · intro _
            refine ⟨⟨f, rfl⟩, ?_⟩
            intro u c hu hne hic
            injection hu with h2
            subst h2
            rw [hi] at hic
            exact Except.noConfusion hic
          · intro _; rfl
        · refine ⟨Or.inl ⟨c, rfl⟩, ?_⟩
          constructor
          · intro h; exact Except.noConfusion h
          · rintro ⟨⟨e2, he⟩, _⟩; exact Except.noConfusion he
      · rw [init_inline_ok inlineInit ambientInit s c hs hi]
        refine ⟨Or.inl ⟨c, rfl⟩, ?_⟩
        constructor
        · intro h; exact Except.noConfusion h
        · rintro ⟨_, hall⟩
          exact absurd hi (hall s c rfl hs)

/-- Claim C1 (amended), witness: with no inline payload and ambient discovery
succeeding, the resolver yields a present handle. -/
theorem c1_amended_witness :
    (∃ c, initialize_vision_client none (fun s => Except.error s)
        (Except.ok (VisionClient.mk 0)) = Except.ok c) ∨
      initialize_vision_client none (fun s => Except.error s)
        (Except.ok (VisionClient.mk 0)) = Except.error runtimeErrorMsg :=
  (c1_amended_resolver_total none (fun s => Except.error s)
    (Except.ok (VisionClient.mk 0))).1

/-- Claim C3, counterexample: with no text annotations the text field is the
source literal "No text detected." (with a trailing period), which is not the
string "No text detected" quoted by the claim. -/
theorem c3_counterexample :
    detected_text [] = "No text detected." ∧
      ¬ detected_text [] = "No text detected" := by
  exact ⟨rfl, by decide⟩

/-- Claim C3 (amended): for every OCR response with no text annotations, the
text field equals the fixed sentinel "No text detected." (trailing period as
in the source literal), and the text field is never the empty string for any
collaborator response. -/
theorem c3_amended_sentinel_nonempty (textAnns : List TextAnn) :
    (textAnns = [] → detected_text textAnns = noTextSentinel) ∧
      ¬ detected_text textAnns = "" := by
  constructor
  · rintro rfl; rfl
  · cases textAnns with
    | nil => decide
    | cons a rest =>
      show ¬ (if pyStrip a.description = "" then noTextSentinel
              else pyStrip a.description) = ""
      split
      · decide
      · assumption

/-- Claim C3 (amended), witness: evaluated at the empty annotation list. -/
theorem c3_amended_witness :
    detected_text [] = noTextSentinel ∧ ¬ detected_text [] = "" :=
  ⟨(c3_amended_sentinel_nonempty []).1 rfl, (c3_amended_sentinel_nonempty []).2⟩

/-- Claim C10: when the first text annotation's description is empty or
whitespace-only, the stripped text is empty and the sentinel is substituted,
so blank-but-present OCR text is never returned as-is. -/
theorem c10_blank_description_sentinel (s : String) (rest : List TextAnn)
    (hws : pyStrip s = "") :
    detected_text (TextAnn.mk s :: rest) = noTextSentinel := by
  unfold detected_text
  simp [hws]

/-- Claim C10, witness: evaluated at a whitespace-only first description. -/
theorem c10_witness :
    detected_text [TextAnn.mk "   "] = noTextSentinel :=
  c10_blank_description_sentinel "   " [] (by decide)

/-- Claim C9: the vision step is a deterministic function of the image bytes
and the collaborator, so submitting the same bytes twice with a deterministic
collaborator yields the same detection result (same raw_text_detected and
detected_labels) in both runs. -/
theorem c9_deterministic_normalization
    (annotate : List Nat → Except String VisionResponse)
    (clientPresent : Bool) (b1 b2 : List Nat) (hb : b1 = b2) :
    vision_process_uploaded_image clientPresent (Except.ok b1) annotate =
      vision_process_uploaded_image clientPresent (Except.ok b2) annotate := by
  rw [hb]

/-- Claim C9, witness: two identical submissions evaluated concretely. -/
theorem c9_witness :
    vision_process_uploaded_image true (Except.ok [7, 7])
        (fun _ => Except.ok (VisionResponse.mk [TextAnn.mk "SUGAR"] [])) =
      vision_process_uploaded_image true (Except.ok [7, 7])
        (fun _ => Except.ok (VisionResponse.mk [TextAnn.mk "SUGAR"] [])) :=
  c9_deterministic_normalization
    (fun _ => Except.ok (VisionResponse.mk [TextAnn.mk "SUGAR"] [])) true
    [7, 7] [7, 7] rfl

/-- Claim C8: when reading the uploaded bytes fails with message e, the
endpoint returns 400 with a detail containing e, and the OCR collaborator is
never called (the outcome does not depend on the annotate function). -/
theorem c8_unreadable_upload_400 (e : String)
    (annotate annotate2 : List Nat → Except String VisionResponse)
    (apiKey : Option String)
    (call : String → List String → Except String CompletionResponse) :
    analyze_image_endpoint true (Except.error e) annotate apiKey call =
      EndpointResult.httpError 400 (readFailMsgStart ++ e) ∧
    analyze_image_endpoint true (Except.error e) annotate apiKey call =
      analyze_image_endpoint true (Except.error e) annotate2 apiKey call ∧
    (∃ pre, readFailMsgStart ++ e = pre ++ e) :=
  ⟨rfl, rfl, readFailMsgStart, rfl⟩

/-- Claim C2: when OPENAI_API_KEY is unset or empty at request time and the
OCR step succeeds, the endpoint returns a 200 body whose summary is the fixed
not-configured diagnostic; the OCR call was attempted and its normalized
results fill raw_text_detected and detected_labels; and no completion call is
attempted (the outcome does not depend on the completion call function). -/
theorem c2_missing_key_degraded (content : List Nat)
    (annotate : List Nat → Except String VisionResponse) (r : VisionResponse)
    (apiKey : Option String)
    (call call2 : String → List String → Except String CompletionResponse)
    (hkey : apiKey.getD "" = "")
    (hann : annotate content = Except.ok r) :
    analyze_image_endpoint true (Except.ok content) annotate apiKey call =
      EndpointResult.ok notConfiguredMsg (detected_text r.textAnns)
        (make_labels r.labelAnns) ∧
    analyze_image_endpoint true (Except.ok content) annotate apiKey call =
      analyze_image_endpoint true (Except.ok content) annotate apiKey call2 := by
  constructor <;>
    simp [analyze_image_endpoint, vision_process_uploaded_image,
      analyze_with_openai, hann, hkey]

/-- Claim C2, witness: evaluated with an unset key, one fixed OCR response
and two different completion collaborators. -/
theorem c2_witness :
    analyze_image_endpoint true (Except.ok [1])
        (fun _ => Except.ok (VisionResponse.mk [TextAnn.mk "SALT"] [])) none
        (fun _ _ => Except.error "boom") =
      EndpointResult.ok notConfiguredMsg
        (detected_text [TextAnn.mk "SALT"]) (make_labels []) ∧
    analyze_image_endpoint true (Except.ok [1])
        (fun _ => Except.ok (VisionResponse.mk [TextAnn.mk "SALT"] [])) none
        (fun _ _ => Except.error "boom") =
      analyze_image_endpoint true (Except.ok [1])
        (fun _ => Except.ok (VisionResponse.mk [TextAnn.mk "SALT"] [])) none
        (fun _ _ => Except.ok (CompletionResponse.mk none false none none)) :=
  c2_missing_key_degraded [1]
    (fun _ => Except.ok (VisionResponse.mk [TextAnn.mk "SALT"] []))
    (VisionResponse.mk [TextAnn.mk "SALT"] []) none
    (fun _ _ => Except.error "boom")
    (fun _ _ => Except.ok (CompletionResponse.mk none false none none))
    rfl rfl

/-- Claim C5: when the OCR collaborator call raises with message e, the
endpoint returns 500 whose detail embeds e (no 200 body with partial results
is produced). -/
theorem c5_ocr_failure_500 (content : List Nat) (e : String)
    (annotate : List Nat → Except String VisionResponse)
    (apiKey : Option String)
    (call : String → List String → Except String CompletionResponse)
    (hann : annotate content = Except.error e) :
    analyze_image_endpoint true (Except.ok content) annotate apiKey call =
      EndpointResult.httpError 500 (visionFailMsgStart ++ e) ∧
    (∃ pre, visionFailMsgStart ++ e = pre ++ e) := by
  refine ⟨?_, visionFailMsgStart, rfl⟩
  simp [analyze_image_endpoint, vision_process_uploaded_image, hann]

/-- Claim C5, witness: evaluated with a collaborator that raises. -/
theorem c5_witness :
    analyze_image_endpoint true (Except.ok [2])
        (fun _ => Except.error "quota exceeded") (some "k")
        (fun _ _ => Except.ok (CompletionResponse.mk none false none none)) =
      EndpointResult.httpError 500 (visionFailMsgStart ++ "quota exceeded") :=
  (c5_ocr_failure_500 [2] "quota exceeded"
    (fun _ => Except.error "quota exceeded") (some "k")
    (fun _ _ => Except.ok (CompletionResponse.mk none false none none)) rfl).1

/-- Claim C6: when the completion call raises with message e (key configured,
OCR succeeded), the exception is caught and converted into a diagnostic
embedding e, and the endpoint still returns a 200 body with that diagnostic
as the summary and the OCR results intact. -/
theorem c6_summarizer_exception_degraded (content : List Nat)
    (annotate : List Nat → Except String VisionResponse) (r : VisionResponse)
    (apiKey : Option String) (e : String)
    (call : String → List String → Except String CompletionResponse)
    (hkey : ¬ apiKey.getD "" = "")
    (hann : annotate content = Except.ok r)
    (hcall : call (detected_text r.textAnns) (make_labels r.labelAnns) =
      Except.error e) :
    analyze_image_endpoint true (Except.ok content) annotate apiKey call =
      EndpointResult.ok (apiErrorMsgStart ++ e) (detected_text r.textAnns)
        (make_labels r.labelAnns) ∧
    (∃ pre, apiErrorMsgStart ++ e = pre ++ e) := by
  refine ⟨?_, apiErrorMsgStart, rfl⟩
  simp [analyze_image_endpoint, vision_process_uploaded_image,
    analyze_with_openai, hann, hkey, hcall]

/-- Claim C6, witness: evaluated with a raising completion collaborator. -/
theorem c6_witness :
    analyze_image_endpoint true (Except.ok [3])
        (fun _ => Except.ok (VisionResponse.mk [] [])) (some "k")
        (fun _ _ => Except.error "rate limited") =
      EndpointResult.ok (apiErrorMsgStart ++ "rate limited")
        (detected_text []) (make_labels []) :=
  (c6_summarizer_exception_degraded [3]
    (fun _ => Except.ok (VisionResponse.mk [] []))
    (VisionResponse.mk [] []) (some "k") "rate limited"
    (fun _ _ => Except.error "rate limited")
    (by decide) rfl rfl).1

/-- Helper: rounding to two decimal places maps [0, 1] into [0, 1]. -/
theorem round2_bounds (q : ℚ) (h0 : 0 ≤ q) (h1 : q ≤ 1) :
    0 ≤ round2 q ∧ round2 q ≤ 1 := by
  have hlo : (0 : ℤ) ≤ round (q * 100) := by
    rw [round_eq]
    exact Int.floor_nonneg.mpr (by linarith)
  have hhi : round (q * 100) ≤ 100 := by
    rw [round_eq]
    have h2 : q * 100 + 1 / 2 ≤ (100 : ℚ) + 1 / 2 := by linarith
    calc ⌊q * 100 + 1 / 2⌋ ≤ ⌊(100 : ℚ) + 1 / 2⌋ := Int.floor_mono h2
      _ = 100 := by norm_num
  unfold round2
  constructor
  · apply div_nonneg _ (by norm_num)
    exact_mod_cast hlo
  · rw [div_le_one (by norm_num)]
    exact_mod_cast hhi

/-- Claim C4: for every collaborator label-annotation list whose scores lie
in [0, 1], the produced entries number at most 5, each carries a rounded
score still in [0, 1], entry i comes from annotation i (collaborator order
preserved, no re-sorting), and the rendered label strings are exactly these
entries in the same order. -/
theorem c4_labels_capped_bounded_ordered (labelAnns : List LabelAnn)
    (hs : ∀ l ∈ labelAnns, 0 ≤ l.score ∧ l.score ≤ 1) :
    (label_entries labelAnns).length ≤ 5 ∧
    (∀ p ∈ label_entries labelAnns, 0 ≤ p.2 ∧ p.2 ≤ 1) ∧
    (∀ i : Fin (label_entries labelAnns).length,
      ∃ hi : (i : ℕ) < labelAnns.length,
        (label_entries labelAnns).get i =
          ((labelAnns.get ⟨i, hi⟩).description,
            round2 (labelAnns.get ⟨i, hi⟩).score)) ∧
    make_labels labelAnns = List.map render_label (label_entries labelAnns) := by
  refine ⟨?_, ?_, ?_, rfl⟩
  · simp [label_entries, List.length_take]
  · intro p hp
    simp only [label_entries, List.mem_map] at hp
    obtain ⟨l, hl, rfl⟩ := hp
    have hl2 : l ∈ labelAnns := List.take_subset 5 labelAnns hl
    exact round2_bounds l.score (hs l hl2).1 (hs l hl2).2
  · intro i
    have hlen : (label_entries labelAnns).length = min 5 labelAnns.length := by
      simp [label_entries, List.length_take]
    have hi : (i : ℕ) < labelAnns.length := by
      have h2 : (i : ℕ) < 5 ⊓ labelAnns.length := hlen ▸ i.2
      simp only [lt_min_iff] at h2
      exact h2.2
    refine ⟨hi, ?_⟩
    simp [label_entries]

/-- Claim C4, witness: evaluated at the two-label response of the spec's
end-to-end scenario. -/
theorem c4_witness :
    (label_entries [LabelAnn.mk "Food" (19/20),
        LabelAnn.mk "Packaging" (81/100)]).length ≤ 5 ∧
    ∀ p ∈ label_entries [LabelAnn.mk "Food" (19/20),
        LabelAnn.mk "Packaging" (81/100)], 0 ≤ p.2 ∧ p.2 ≤ 1 :=
  ⟨(c4_labels_capped_bounded_ordered
      [LabelAnn.mk "Food" (19/20), LabelAnn.mk "Packaging" (81/100)]
      (by intro l hl; fin_cases hl <;> norm_num)).1,
   (c4_labels_capped_bounded_ordered
      [LabelAnn.mk "Food" (19/20), LabelAnn.mk "Packaging" (81/100)]
      (by intro l hl; fin_cases hl <;> norm_num)).2.1⟩

/-- Claim C7: with the key configured and the completion collaborator
returning response r, extraction prefers the conventional message-content
location (taken whenever it is a non-empty string), otherwise the `output`
shape when that attribute exists, otherwise `choices[0].text`; whenever every
shape yields absent, empty or whitespace-only text, the summary equals the
fixed could-not-generate diagnostic; and under a successful OCR step the
endpoint still returns a 200 body carrying that summary. -/
theorem c7_extraction_order_and_empty_fallback (apiKey : Option String)
    (t : String) (ls : List String) (r : CompletionResponse)
    (hkey : ¬ apiKey.getD "" = "") :
    (∀ c, r.messageContent = some c → ¬ c = "" →
      analyze_with_openai apiKey t ls (fun _ _ => Except.ok r) =
        (if pyStrip c = "" then emptyDiagMsg else pyStrip c)) ∧
    ((r.messageContent = none ∨ r.messageContent = some "") →
      r.hasOutput = true →
      analyze_with_openai apiKey t ls (fun _ _ => Except.ok r) =
        (match r.outputText with
          | none => emptyDiagMsg
          | some c => if pyStrip c = "" then emptyDiagMsg else pyStrip c)) ∧
    ((r.messageContent = none ∨ r.messageContent = some "") →
      r.hasOutput = false →
      analyze_with_openai apiKey t ls (fun _ _ => Except.ok r) =
        (match r.choiceText with
          | none => emptyDiagMsg
          | some c => if pyStrip c = "" then emptyDiagMsg else pyStrip c)) ∧
    ((∀ c, r.messageContent = some c → pyStrip c = "") →
     (∀ c, r.outputText = some c → pyStrip c = "") →
     (∀ c, r.choiceText = some c → pyStrip c = "") →
      analyze_with_openai apiKey t ls (fun _ _ => Except.ok r) =
        emptyDiagMsg) ∧
    (∀ (content : List Nat)
        (annotate : List Nat → Except String VisionResponse)
        (vr : VisionResponse), annotate content = Except.ok vr →
      analyze_image_endpoint true (Except.ok content) annotate apiKey
          (fun _ _ => Except.ok r) =
        EndpointResult.ok
          (analyze_with_openai apiKey (detected_text vr.textAnns)
            (make_labels vr.labelAnns) (fun _ _ => Except.ok r))
          (detected_text vr.textAnns) (make_labels vr.labelAnns)) := by
  have hred : analyze_with_openai apiKey t ls (fun _ _ => Except.ok r) =
      match summary_content r with
      | none => emptyDiagMsg
      | some s => if pyStrip s = "" then emptyDiagMsg else pyStrip s := by
    simp [analyze_with_openai, hkey]
  refine ⟨?_, ?_, ?_, ?_, ?_⟩
  · intro c hmc hne
    rw [hred]
    simp [summary_content, hmc, hne]
  · intro hmc hho
    rw [hred]
    rcases hot : r.outputText with _ | c <;>
      rcases hmc with hmc | hmc <;>
        simp [summary_content, hmc, hho, hot]
  · intro hmc hho
    rw [hred]
    rcases hct : r.choiceText with _ | c <;>
      rcases hmc with hmc | hmc <;>
        simp [summary_content, hmc, hho, hct]
  · intro h1 h2 h3
    rw [hred]
    have hfall :
        (match (if r.hasOutput then r.outputText else r.choiceText) with
          | none => emptyDiagMsg
          | some s => if pyStrip s = "" then emptyDiagMsg else pyStrip s) =
          emptyDiagMsg := by
      cases hho : r.hasOutput with
      | true =>
        rcases hot : r.outputText with _ | c
        · simp [hho, hot]
        · simp [hho, hot, h2 c hot]
      | false =>
        rcases hct : r.choiceText with _ | c
        · simp [hho, hct]
        · simp [hho, hct, h3 c hct]
    rcases hmc : r.messageContent with _ | c
    · rw [show summary_content r = (if r.hasOutput then r.outputText
          else r.choiceText) by simp [summary_content, hmc]]
      exact hfall
    · by_cases hce : c = ""
      · subst hce
        rw [show summary_content r = (if r.hasOutput then r.outputText
            else r.choiceText) by simp [summary_content, hmc]]
        exact hfall
      · rw [show summary_content r = some c by
          simp [summary_content, hmc, hce]]
        simp [h1 c hmc]
  · intro content annotate vr hann
    simp [analyze_image_endpoint, vision_process_uploaded_image, hann]

/-- Claim C7, witness: whitespace-only message content with an empty output
shape yields the fixed diagnostic. -/
theorem c7_witness :
    analyze_with_openai (some "k") "t" []
        (fun _ _ => Except.ok
          (CompletionResponse.mk (some " ") true (some "") none)) =
      emptyDiagMsg :=
  (c7_extraction_order_and_empty_fallback (some "k") "t" []
      (CompletionResponse.mk (some " ") true (some "") none)
      (by decide)).2.2.2.1
    (by intro c hc; injection hc with h; subst h; decide)
    (by intro c hc; injection hc with h; subst h; decide)
    (by intro c hc; exact Option.noConfusion hc)

end HealthCheck
